import Mathlib

/-!
Verification of the waldo gameplay-submission core: a shallow embedding of
the tRPC gameplay router (`apps/web/server/trpc/router/gameplay.ts`), the
legacy express footage endpoints, the clips extraction service, and the
Prisma data model, together with theorems settling the specification's
claims about them.

Conventions: the Prisma database is a record of lists of rows; each
endpoint handler becomes a pure function from the session, its input and
the database to an `Except` result (and, for mutations, the successor
database). Randomness (`Math.random`) and externally produced values
(fresh cuids, ytdl metadata, analyzer output) are passed as parameters.
-/

namespace Waldo

/-! ## Roles and permission requirements -/

/-- The role enumeration of the Prisma schema: `USER`, `TRUSTED`, `MOD`,
`ADMIN`. -/
inductive Roles where
  | User
  | Trusted
  | Mod
  | Admin
deriving DecidableEq, Repr

/-- Rank giving the total order base < trusted < moderator < administrator. -/
def roleRank : Roles → Nat
  | .User => 0
  | .Trusted => 1
  | .Mod => 2
  | .Admin => 3

/-- The two permission requirements the router passes to `hasPerms`:
`Perms.isOwner` and `Perms.roleMod`. -/
inductive Perms where
  | isOwner
  | roleMod
deriving DecidableEq, Repr

/-- The argument bag of a `hasPerms` call, exactly the fields the router
passes: `userId`, `userRole`, optional `itemOwnerId`, `requiredPerms`,
`blacklisted`. -/
structure PermCheck where
  userId : String
  userRole : Roles
  itemOwnerId : Option String := none
  requiredPerms : Perms
  blacklisted : Bool
deriving DecidableEq, Repr

/-- Modelled from the spec: the implementation of `hasPerms`
(`@server/utils/hasPerms`) is not part of the available sources, only its
call sites are.  The spec's Permission Engine contract (section 4.1) says:
if `blacklisted` is true, always deny; `isOwner` allows iff the actor id
equals the resource owner id, or the actor role is at least moderator;
`roleAtLeast(R)` allows iff the actor role is at least `R` (here only
`R = moderator` is ever requested, as `Perms.roleMod`).  The `create`
call site passes no `itemOwnerId`; the spec leaves that case
unconstrained, and it is modelled as ownership trivially satisfied, so
that the gate reduces to the blacklist test there. -/
def hasPerms (c : PermCheck) : Bool :=
  if c.blacklisted then
    false
  else
    match c.requiredPerms with
    | .isOwner =>
        (match c.itemOwnerId with
         | some owner => c.userId == owner
         | none => true)
        || decide (roleRank c.userRole ≥ roleRank .Mod)
    | .roleMod => decide (roleRank c.userRole ≥ roleRank .Mod)

/-! ## Data model (Prisma schema) -/

/-- The `GameplayType` enum of the Prisma schema. -/
inductive GameplayType where
  | VAL
  | CSG
  | TF2
  | APE
  | COD
  | R6S
deriving DecidableEq, Repr

/-- A row of the `Gameplay` (footage) model.  `videoFormat` comes from the
footage zod model, `isParsed` from the footage document model; both belong
to the same submission entity across the repository's two generations. -/
structure Gameplay where
  id : String
  userId : String
  youtubeUrl : String
  gameplayType : GameplayType
  videoFormat : Nat
  isAnalyzed : Bool
  isParsed : Bool
deriving DecidableEq, Repr

/-- A row of the `Clip` model: `id` plus the owning `gameplayId`. -/
structure Clip where
  id : String
  gameplayId : String
deriving DecidableEq, Repr

/-- A row of the `GameplayVotes` model. -/
structure GameplayVote where
  id : String
  gameplayId : String
  userId : String
  isGame : Bool
  actualGame : GameplayType
deriving DecidableEq, Repr

/-- The fields of the `User` model the core reads. -/
structure UserRec where
  id : String
  name : Option String
  role : Roles
  blacklisted : Bool
deriving DecidableEq, Repr

/-- The database: one list of rows per model. -/
structure Db where
  users : List UserRec
  footage : List Gameplay
  clips : List Clip
  votes : List GameplayVote
deriving DecidableEq, Repr

/-- The authenticated session as populated by the next-auth session
callback: user id, role and blacklist flag. -/
structure Session where
  id : String
  role : Roles
  blacklisted : Bool
deriving DecidableEq, Repr

/-- Causes recorded when a handler's catch-all converts a thrown error
into an internal server error. -/
inductive CaughtErr where
  | unauthorized
  | recordNotFound
  | restrictViolation
  | fkViolation
deriving DecidableEq, Repr

/-- Error outcomes of the endpoints, following the spec's taxonomy:
`DuplicateSource` and `NoAcceptableEncoding` are the two BAD_REQUEST
variants of `create`; `Internal c` is an INTERNAL_SERVER_ERROR carrying
the caught cause `c`. -/
inductive Err where
  | Unauthorized
  | NotFound
  | DuplicateSource
  | NoAcceptableEncoding
  | MetadataUnavailable
  | Internal (cause : CaughtErr)
deriving DecidableEq, Repr

/-! ## Prisma primitives -/

/-- `prisma.footage.findUnique` on `id`. -/
def findGameplay (db : Db) (gid : String) : Option Gameplay :=
  db.footage.find? (fun g => g.id == gid)

/-- `prisma.footage.findUnique` on the unique `youtubeUrl` column. -/
def findGameplayByUrl (db : Db) (url : String) : Option Gameplay :=
  db.footage.find? (fun g => g.youtubeUrl == url)

/-- The clips belonging to one gameplay. -/
def clipsOf (db : Db) (gid : String) : List Clip :=
  db.clips.filter (fun c => c.gameplayId == gid)

/-- The votes belonging to one gameplay. -/
def votesOf (db : Db) (gid : String) : List GameplayVote :=
  db.votes.filter (fun v => v.gameplayId == gid)

/-- The row produced by `prisma.footage.update` with the router's update
data: `isAnalyzed` and `footageType`. -/
def updateRow (g : Gameplay) (ftype : GameplayType) (analyzed : Bool) : Gameplay :=
  { g with gameplayType := ftype, isAnalyzed := analyzed }

/-- `prisma.footage.update` on `id`: throws `RecordNotFound` when no row
matches. -/
def prismaUpdateGameplay (db : Db) (gid : String) (ftype : GameplayType)
    (analyzed : Bool) : Except CaughtErr (Gameplay × Db) :=
  match findGameplay db gid with
  | none => .error .recordNotFound
  | some g =>
      let g' := updateRow g ftype analyzed
      .ok (g', { db with footage := db.footage.map (fun x => if x.id == gid then g' else x) })

/-- `prisma.footage.delete` under the schema: the `GameplayVotes.gameplay`
relation declares `onDelete: Cascade`, so votes of the deleted gameplay
are removed with it; the `Clip.gameplay` relation declares no referential
action, so Prisma's default `Restrict` applies and deleting a gameplay
that still has clips fails. -/
def prismaDeleteGameplay (db : Db) (gid : String) : Except CaughtErr Db :=
  match findGameplay db gid with
  | none => .error .recordNotFound
  | some _ =>
      if (clipsOf db gid).isEmpty then
        .ok { db with
              footage := db.footage.filter (fun g => g.id != gid),
              votes := db.votes.filter (fun v => v.gameplayId != gid) }
      else
        .error .restrictViolation

/-! ## Source resolver inputs (ytdl metadata) -/

/-- One entry of `details.formats` from `ytdl.getInfo`; only the `itag`
is consulted. -/
structure VideoFormat where
  itag : Nat
deriving DecidableEq, Repr

/-- The metadata returned by `ytdl.getInfo`. -/
structure VideoInfo where
  formats : List VideoFormat
deriving DecidableEq, Repr

/-- The router's encoding selection: `defaultFormat` is the first format
with itag 299, otherwise the first with itag 298; `lowFormat` is the
literal number 136 when a format with itag 136 exists; the chosen value is
`defaultFormat.itag` when `defaultFormat` exists, otherwise `lowFormat`;
`none` means no acceptable format. -/
def chooseFormat (formats : List VideoFormat) : Option Nat :=
  let defaultFormat :=
    (formats.find? (fun f => f.itag == 299)).orElse
      (fun _ => formats.find? (fun f => f.itag == 298))
  let lowFormat : Option Nat :=
    if (formats.find? (fun f => f.itag == 136)).isSome then some 136 else none
  match defaultFormat with
  | some f => some f.itag
  | none => lowFormat

/-- The row `create` persists on success. -/
def newGameplay (userId url : String) (t : GameplayType) (fmt : Nat) (gid : String) : Gameplay :=
  { id := gid, userId := userId, youtubeUrl := url, gameplayType := t,
    videoFormat := fmt, isAnalyzed := false, isParsed := false }

/-! ## The tRPC gameplay router

Each procedure becomes a function of the session, its input and the
database.  Queries return an `Except Err` result; mutations additionally
return the successor database (unchanged on error). -/

/-- `gameplay.get`: find the row, then gate on `Perms.isOwner`; both a
missing row and a permission denial surface as NOT_FOUND.  The call site
passes the constant role `Roles.User`. -/
def gameplayGet (sess : Session) (gameplayId : String) (db : Db) : Except Err Gameplay :=
  match findGameplay db gameplayId with
  | none => .error .NotFound
  | some gameplay =>
      if hasPerms { userId := sess.id, userRole := .User, itemOwnerId := some gameplay.userId,
                    requiredPerms := .isOwner, blacklisted := sess.blacklisted } then
        .ok gameplay
      else
        .error .NotFound

/-- `gameplay.getMany`: no permission check; pages by `take 10` and
`skip page*10-10` (a negative skip is rejected by prisma, and the
handler's catch converts that to NOT_FOUND); each returned row is paired
with the total count `Object.assign`ed onto it. -/
def gameplayGetMany (sess : Session) (page : Int) (filterGames : Option GameplayType)
    (db : Db) : Except Err (List (Gameplay × Nat)) :=
  let skipValue := page * 10 - 10
  match filterGames with
  | none =>
      let gameplayCount := db.footage.length
      if skipValue < 0 then .error .NotFound
      else .ok (((db.footage.drop skipValue.toNat).take 10).map (fun g => (g, gameplayCount)))
  | some t =>
      let matching := db.footage.filter (fun g => g.gameplayType == t)
      let gameplayCount := matching.length
      if skipValue < 0 then .error .NotFound
      else .ok (((matching.drop skipValue.toNat).take 10).map (fun g => (g, gameplayCount)))

/-- `gameplay.create`: gate on `Perms.isOwner` (no `itemOwnerId`, constant
role `Roles.User`), then the duplicate-url lookup, then the remote
metadata fetch (`meta = none` models a failed `ytdl.getInfo`), then
encoding selection, then the insert.  `newId` is the cuid the insert
allocates. -/
def gameplayCreate (sess : Session) (youtubeUrl : String) (gameplayType : GameplayType)
    (meta : Option VideoInfo) (newId : String) (db : Db) : Except Err Gameplay × Db :=
  if !hasPerms { userId := sess.id, userRole := .User, requiredPerms := .isOwner,
                 blacklisted := sess.blacklisted } then
    (.error .Unauthorized, db)
  else if (findGameplayByUrl db youtubeUrl).isSome then
    (.error .DuplicateSource, db)
  else
    match meta with
    | none => (.error .MetadataUnavailable, db)
    | some details =>
        match chooseFormat details.formats with
        | none => (.error .NoAcceptableEncoding, db)
        | some fmt =>
            let g := newGameplay sess.id youtubeUrl gameplayType fmt newId
            (.ok g, { db with footage := db.footage ++ [g] })

/-- `gameplay.getUsers`: resolve the target user (session user when the
input id is absent), gate on `Perms.isOwner` against that target with the
constant role `Roles.User`, then return the target's footage. -/
def gameplayGetUsers (sess : Session) (inputUserId : Option String) (db : Db) :
    Except Err (List Gameplay) :=
  let userId := inputUserId.getD sess.id
  if !hasPerms { userId := sess.id, userRole := .User, itemOwnerId := some userId,
                 requiredPerms := .isOwner, blacklisted := sess.blacklisted } then
    .error .Unauthorized
  else
    match db.users.find? (fun u => u.id == userId) with
    | none => .error .NotFound
    | some _ => .ok (db.footage.filter (fun g => g.userId == userId))

/-- `gameplay.getClips`: find the row (NOT_FOUND if missing), gate on
`Perms.roleMod` with the constant role `Roles.User`, then return the
clips. -/
def gameplayGetClips (sess : Session) (gameplayId : String) (db : Db) :
    Except Err (List Clip) :=
  match findGameplay db gameplayId with
  | none => .error .NotFound
  | some gameplay =>
      if !hasPerms { userId := sess.id, userRole := .User, itemOwnerId := some gameplay.userId,
                     requiredPerms := .roleMod, blacklisted := sess.blacklisted } then
        .error .Unauthorized
      else
        .ok (clipsOf db gameplayId)

/-- `gameplay.update`: the whole handler body sits in a try/catch whose
catch-all rethrows every error as INTERNAL_SERVER_ERROR with the original
error as cause.  Inside: `findUniqueOrThrow`, then the requirement choice
(`Perms.isOwner` when the stored `isAnalyzed` equals the submitted one,
`Perms.roleMod` otherwise), the `hasPerms` gate with the constant role
`Roles.User` — whose UNAUTHORIZED throw is itself caught by the same
catch-all — then the update. -/
def gameplayUpdate (sess : Session) (gameplayId : String) (footageType : GameplayType)
    (isAnalyzed : Bool) (db : Db) : Except Err Gameplay × Db :=
  match findGameplay db gameplayId with
  | none => (.error (.Internal .recordNotFound), db)
  | some gameplay =>
      let requiredPerms := if gameplay.isAnalyzed == isAnalyzed then Perms.isOwner else Perms.roleMod
      if !hasPerms { userId := sess.id, userRole := .User, itemOwnerId := some gameplay.userId,
                     requiredPerms := requiredPerms, blacklisted := sess.blacklisted } then
        (.error (.Internal .unauthorized), db)
      else
        let g' := updateRow gameplay footageType isAnalyzed
        (.ok g', { db with footage := db.footage.map (fun x => if x.id == gameplayId then g' else x) })

/-- `gameplay.delete`: same try/catch shape as `update`:
`findUniqueOrThrow`, the `Perms.isOwner` gate with constant role
`Roles.User` (its UNAUTHORIZED throw caught by the catch-all), then
`prisma.footage.delete` with its cascade/restrict semantics. -/
def gameplayDelete (sess : Session) (gameplayId : String) (db : Db) :
    Except Err Unit × Db :=
  match findGameplay db gameplayId with
  | none => (.error (.Internal .recordNotFound), db)
  | some gameplay =>
      if !hasPerms { userId := sess.id, userRole := .User, itemOwnerId := some gameplay.userId,
                     requiredPerms := .isOwner, blacklisted := sess.blacklisted } then
        (.error (.Internal .unauthorized), db)
      else
        match prismaDeleteGameplay db gameplayId with
        | .ok db' => (.ok (), db')
        | .error e => (.error (.Internal e), db)

/-! ## Review sampler and vote aggregator -/

/-- The three sort keys `getReviewItems` draws from. -/
inductive OrderKey where
  | byUserId
  | byId
  | byYoutubeUrl
deriving DecidableEq, Repr

/-- The two sort directions. -/
inductive OrderDir where
  | desc
  | asc
deriving DecidableEq, Repr

/-- The string column a sort key orders by. -/
def keyOf : OrderKey → Gameplay → String
  | .byUserId, g => g.userId
  | .byId, g => g.id
  | .byYoutubeUrl, g => g.youtubeUrl

/-- Insertion step of the stable sort modelling the database ordering. -/
def insertSorted (le : Gameplay → Gameplay → Bool) (g : Gameplay) :
    List Gameplay → List Gameplay
  | [] => [g]
  | x :: xs => if le g x then g :: x :: xs else x :: insertSorted le g xs

/-- A stable structural sort modelling the database ordering. -/
def sortBy (le : Gameplay → Gameplay → Bool) : List Gameplay → List Gameplay
  | [] => []
  | x :: xs => insertSorted le x (sortBy le xs)

/-- The ordering `findMany` applies for a drawn key and direction. -/
def sortGameplays (key : OrderKey) (dir : OrderDir) (l : List Gameplay) : List Gameplay :=
  match dir with
  | .asc => sortBy (fun a b => (compare (keyOf key a) (keyOf key b)).isLE) l
  | .desc => sortBy (fun a b => (compare (keyOf key b) (keyOf key a)).isLE) l

/-- The review item: the sampled gameplay joined with its owner row
(`include: { user: true }`), of which the UI reads the display name. -/
structure ReviewItem where
  gameplay : Gameplay
  userName : Option String
deriving DecidableEq, Repr

/-- `gameplay.getReviewItems`: draws a sort key, a direction and a skip
(`Math.floor(Math.random() * itemCount)`), then `findMany` with `take 1`.
`findMany` resolves to an array and never to null, so the handler's
`reviewItems === null` test — the only path to its NOT_FOUND error — is
never true; the model keeps that dead branch.  On an empty result the
handler returns `reviewItems[0]`, i.e. undefined, modelled as `.ok none`
(which then fails the procedure's output schema, an internal failure
rather than NOT_FOUND). -/
def gameplayGetReviewItems (sess : Session) (key : OrderKey) (dir : OrderDir)
    (skip : Nat) (db : Db) : Except Err (Option ReviewItem) :=
  let reviewItems : Option (List Gameplay) :=
    some (((sortGameplays key dir db.footage).drop skip).take 1)
  match reviewItems with
  | none => .error .NotFound
  | some l =>
      .ok (l.head?.map (fun g =>
        { gameplay := g,
          userName := (db.users.find? (fun u => u.id == g.userId)).bind (fun u => u.name) }))

/-- `gameplay.review` (castVote): no `hasPerms` call anywhere in the
handler — only a truthiness test on the session user id — then
`prisma.footageVotes.create`.  The created row references
`input.gameplayId`; when no such gameplay exists the foreign key on
`GameplayVotes.gameplayId` makes the insert throw (surfacing as an
internal error); otherwise the vote row is appended and the success
message returned.  `newVoteId` is the cuid the insert allocates. -/
def gameplayReview (sess : Session) (gameplayId : String) (isGame : Bool)
    (actualGame : GameplayType) (newVoteId : String) (db : Db) :
    Except Err String × Db :=
  if sess.id.isEmpty then
    (.ok "No user", db)
  else
    match findGameplay db gameplayId with
    | none => (.error (.Internal .fkViolation), db)
    | some _ =>
        let vote : GameplayVote :=
          { id := newVoteId, gameplayId := gameplayId, userId := sess.id,
            isGame := isGame, actualGame := actualGame }
        (.ok "Updated the gameplay document successfully.",
         { db with votes := db.votes ++ [vote] })

/-! ## Legacy express footage endpoints -/

/-- Legacy `PATCH /footage/:id` (`updateFootage`): no permission check of
any kind; updates the row directly, mapping any prisma error to a 500. -/
def updateFootage (gid : String) (isAnalyzed : Bool) (footageType : GameplayType)
    (db : Db) : Except Err Gameplay × Db :=
  match prismaUpdateGameplay db gid footageType isAnalyzed with
  | .ok (g, db') => (.ok g, db')
  | .error e => (.error (.Internal e), db)

/-- Legacy `DELETE /footage/:id` (`deleteFootage`): no permission check of
any kind; deletes the row directly, mapping any prisma error to a 500. -/
def deleteFootage (gid : String) (db : Db) : Except Err String × Db :=
  match prismaDeleteGameplay db gid with
  | .ok db' => (.ok "Footage deleted successfully.", db')
  | .error e => (.error (.Internal e), db)

/-! ## Extraction pipeline (`parseClips` / `storeClips`) -/

/-- Everything the clips service touches: the transient `clips` working
directory and the segment directories inside it, the downloaded video
file, the durable per-footage store under `FS_LOCATION` (as pairs of
footage id and clip cuid), the Clip rows, and the footage's `isParsed`
flag. -/
structure ExtractState where
  clipsRootExists : Bool
  segmentDirs : List String
  videoFileExists : Bool
  durableDirs : List (String × String)
  clipRows : List Clip
  isParsed : Bool
deriving DecidableEq, Repr

/-- `storeClips`: for every segment directory it allocates a fresh cuid,
creates `FS_LOCATION/{id}/{uuid}` and copies the segment there.  The
`prisma.clip.create` call in the source is commented out (a TODO), so no
Clip row is ever written. -/
def storeClips (id : String) (freshIds : List String) (st : ExtractState) : ExtractState :=
  { st with durableDirs := st.durableDirs ++ (st.segmentDirs.zip freshIds).map (fun p => (id, p.2)) }

/-- The exit handler `parseClips` registers on the analyzer process: it
enumerates the segment directories, and only when at least one exists does
it run `storeClips` and remove the transient `clips` directory and the
downloaded video.  The `prisma.footage.update` that would set `isParsed`
is commented out (a TODO), so the flag is never written on any path; and
with zero segment directories the handler does nothing at all. -/
def parseClipsOnExit (uuid : String) (freshIds : List String) (st : ExtractState) : ExtractState :=
  if st.segmentDirs.length > 0 then
    let st' := storeClips uuid freshIds st
    { st' with clipsRootExists := false, segmentDirs := [], videoFileExists := false }
  else
    st

/-- A whole `parseClips` run: create the `clips` working directory if
missing, let the (opaque) analyzer populate it with `producedSegs`, then
run the exit handler. -/
def parseClipsRun (uuid : String) (producedSegs : List String) (freshIds : List String)
    (st : ExtractState) : ExtractState :=
  let st1 := { st with clipsRootExists := true }
  let st2 := { st1 with segmentDirs := producedSegs }
  parseClipsOnExit uuid freshIds st2

/-! ## Sample values used by concrete evaluations -/

/-- A sample submission owned by `owner1`. -/
def gW : Gameplay :=
  { id := "g1", userId := "owner1", youtubeUrl := "https://y/a",
    gameplayType := .VAL, videoFormat := 299, isAnalyzed := false, isParsed := false }

/-- A sample database holding `gW` and its owner. -/
def dbW : Db :=
  { users := [{ id := "owner1", name := some "Owner", role := .User, blacklisted := false }],
    footage := [gW], clips := [], votes := [] }

end Waldo

deriving instance DecidableEq for Except

namespace Waldo

/-! ## Helper lemmas -/

/-- Rows surviving a `!= k` filter on a field are never found by an
`== k` search on the same field. -/
theorem find?_eq_after_filter_ne {α : Type} (f : α → String) (k : String) (l : List α) :
    (l.filter (fun x => f x != k)).find? (fun x => f x == k) = none := by
  apply List.find?_eq_none.mpr
  intro x hx
  have hne := (List.mem_filter.mp hx).2
  simp only [bne_iff_ne, ne_eq] at hne
  simp [hne]

/-- Rows surviving a `!= k` filter on a field never survive an `== k`
filter on the same field. -/
theorem filter_eq_after_filter_ne {α : Type} (f : α → String) (k : String) (l : List α) :
    (l.filter (fun x => f x != k)).filter (fun x => f x == k) = [] := by
  rw [List.filter_eq_nil_iff]
  intro x hx
  have hne := (List.mem_filter.mp hx).2
  simp only [bne_iff_ne, ne_eq] at hne
  simp [hne]

/-! ## Claim theorems -/

/-- Claim C10: every `hasPerms` call site of the gameplay router passes
the constant role `Roles.User` instead of the session role, so any two
sessions agreeing on user id and blacklist flag — roles arbitrary —
receive identical results and post-states from every operation of the
router; in particular a moderator or administrator role never grants the
ownership bypass and never satisfies the `roleAtLeast(moderator)` gate. -/
theorem role_never_consulted (s1 s2 : Session) (h1 : s1.id = s2.id)
    (h2 : s1.blacklisted = s2.blacklisted) :
    (∀ gid db, gameplayGet s1 gid db = gameplayGet s2 gid db) ∧
    (∀ page f db, gameplayGetMany s1 page f db = gameplayGetMany s2 page f db) ∧
    (∀ url t m nid db, gameplayCreate s1 url t m nid db = gameplayCreate s2 url t m nid db) ∧
    (∀ uid db, gameplayGetUsers s1 uid db = gameplayGetUsers s2 uid db) ∧
    (∀ gid db, gameplayGetClips s1 gid db = gameplayGetClips s2 gid db) ∧
    (∀ gid t a db, gameplayUpdate s1 gid t a db = gameplayUpdate s2 gid t a db) ∧
    (∀ gid db, gameplayDelete s1 gid db = gameplayDelete s2 gid db) ∧
    (∀ k d sk db, gameplayGetReviewItems s1 k d sk db = gameplayGetReviewItems s2 k d sk db) ∧
    (∀ gid ig ag nv db, gameplayReview s1 gid ig ag nv db = gameplayReview s2 gid ig ag nv db) := by
  obtain ⟨i1, r1, b1⟩ := s1
  obtain ⟨i2, r2, b2⟩ := s2
  have h1' : i1 = i2 := h1
  have h2' : b1 = b2 := h2
  subst h1'
  subst h2'
  exact ⟨fun _ _ => rfl, fun _ _ _ => rfl, fun _ _ _ _ _ => rfl, fun _ _ => rfl,
         fun _ _ => rfl, fun _ _ _ _ => rfl, fun _ _ => rfl, fun _ _ _ _ => rfl,
         fun _ _ _ _ _ => rfl⟩

/-- Witness for `role_never_consulted`: an administrator session and a
base-role session with the same id and blacklist flag are treated
identically by `get` and by `update`. -/
theorem role_never_consulted_witness :
    (Session.mk "mia" .Admin false).id = (Session.mk "mia" .User false).id ∧
    (Session.mk "mia" .Admin false).blacklisted = (Session.mk "mia" .User false).blacklisted ∧
    gameplayGet ⟨"mia", .Admin, false⟩ "g1" dbW = gameplayGet ⟨"mia", .User, false⟩ "g1" dbW ∧
    gameplayUpdate ⟨"mia", .Admin, false⟩ "g1" .CSG true dbW =
      gameplayUpdate ⟨"mia", .User, false⟩ "g1" .CSG true dbW :=
  ⟨rfl, rfl,
   (role_never_consulted ⟨"mia", .Admin, false⟩ ⟨"mia", .User, false⟩ rfl rfl).1 "g1" dbW,
   (role_never_consulted ⟨"mia", .Admin, false⟩ ⟨"mia", .User, false⟩ rfl rfl).2.2.2.2.2.1
     "g1" .CSG true dbW⟩

/-- Claim C2, evaluated at its failing input: `gW` is not analyzed and is
owned by `owner1`; the caller `mod1` genuinely holds the moderator role,
is not blacklisted and submits `isAnalyzed := true`, so by the claim the
call must succeed — the Permission Engine itself would allow it, as the
`hasPerms` conjunct shows.  But the call site hands `hasPerms` the
constant role `Roles.User`, so the update is denied, and because the
UNAUTHORIZED throw sits inside the handler's try/catch the denial
surfaces as an internal server error rather than Unauthorized. -/
theorem moderator_flip_isAnalyzed_denied :
    gW.isAnalyzed = false ∧ gW.userId = "owner1" ∧
    hasPerms ⟨"mod1", .Mod, some "owner1", .roleMod, false⟩ = true ∧
    gameplayUpdate ⟨"mod1", .Mod, false⟩ "g1" .VAL true dbW =
      (.error (.Internal .unauthorized), dbW) := by decide

/-- Counterexample to claim C1: the `review` (castVote) handler never
calls the Permission Engine.  For the blacklisted actor `eve` the engine
denies every requirement it could be asked — ownership (even of her own
resource), ownership without a resource owner, and the moderator floor —
yet her castVote call succeeds and changes state. -/
theorem castVote_bypasses_permission_engine :
    hasPerms ⟨"eve", .Admin, some "eve", .isOwner, true⟩ = false ∧
    hasPerms ⟨"eve", .Admin, none, .isOwner, true⟩ = false ∧
    hasPerms ⟨"eve", .Admin, some "owner1", .roleMod, true⟩ = false ∧
    (gameplayReview ⟨"eve", .Admin, true⟩ "g1" true .VAL "v9" dbW).1 =
      .ok "Updated the gameplay document successfully." ∧
    (gameplayReview ⟨"eve", .Admin, true⟩ "g1" true .VAL "v9" dbW).2 ≠ dbW := by decide

/-- Claim C1 (amended): the tRPC operations create, get (read-one),
getClips (list-clips), update and delete evaluate the Permission Engine
before changing or returning state, and when that check denies they
return an error and change no state; but castVote performs no Permission
Engine check — only a session-id truthiness test — and records a vote for
any authenticated actor, and the legacy footage update and delete
endpoints mutate with no check of any kind: they take no actor identity
at all, and the last two conjuncts show them changing state
unconditionally. -/
theorem permission_gate_coverage (sess : Session) (db : Db) (gid url nid nv : String)
    (t : GameplayType) (a : Bool) (m : Option VideoInfo) (g : Gameplay)
    (hg : findGameplay db gid = some g) :
    (hasPerms ⟨sess.id, .User, none, .isOwner, sess.blacklisted⟩ = false →
      gameplayCreate sess url t m nid db = (.error .Unauthorized, db)) ∧
    (hasPerms ⟨sess.id, .User, some g.userId, .isOwner, sess.blacklisted⟩ = false →
      gameplayGet sess gid db = .error .NotFound) ∧
    (hasPerms ⟨sess.id, .User, some g.userId, .roleMod, sess.blacklisted⟩ = false →
      gameplayGetClips sess gid db = .error .Unauthorized) ∧
    (hasPerms ⟨sess.id, .User, some g.userId,
        (if g.isAnalyzed = a then .isOwner else .roleMod), sess.blacklisted⟩ = false →
      gameplayUpdate sess gid t a db = (.error (.Internal .unauthorized), db)) ∧
    (hasPerms ⟨sess.id, .User, some g.userId, .isOwner, sess.blacklisted⟩ = false →
      gameplayDelete sess gid db = (.error (.Internal .unauthorized), db)) ∧
    (sess.id.isEmpty = false →
      (gameplayReview sess gid a t nv db).2.votes = db.votes ++ [⟨nv, gid, sess.id, a, t⟩]) ∧
    (updateFootage gid a t db).2.footage =
      db.footage.map (fun x => if x.id == gid then updateRow g t a else x) ∧
    ((clipsOf db gid).isEmpty = true →
      deleteFootage gid db =
        (.ok "Footage deleted successfully.",
         { db with footage := db.footage.filter (fun x => x.id != gid),
                   votes := db.votes.filter (fun v => v.gameplayId != gid) })) := by
  refine ⟨?_, ?_, ?_, ?_, ?_, ?_, ?_, ?_⟩
  · intro h; simp [gameplayCreate, h]
  · intro h; simp [gameplayGet, hg, h]
  · intro h; simp [gameplayGetClips, hg, h]
  · intro h; simp [gameplayUpdate, hg, h]
  · intro h; simp [gameplayDelete, hg, h]
  · intro h; simp [gameplayReview, hg, h]
  · simp [updateFootage, prismaUpdateGameplay, hg]
  · intro h; simp [deleteFootage, prismaDeleteGameplay, hg, h]

/-- Witness for `permission_gate_coverage`: a blacklisted stranger is
denied by the engine as `create` invokes it, and `create` returns
Unauthorized leaving the database unchanged; meanwhile the legacy
`deleteFootage` endpoint, given no actor identity at all, deletes `g1`. -/
theorem permission_gate_coverage_witness :
    findGameplay dbW "g1" = some gW ∧
    hasPerms ⟨"stranger", .User, none, .isOwner, true⟩ = false ∧
    gameplayCreate ⟨"stranger", .User, true⟩ "https://y/z" .CSG none "n9" dbW =
      (.error .Unauthorized, dbW) ∧
    (clipsOf dbW "g1").isEmpty = true ∧
    deleteFootage "g1" dbW =
      (.ok "Footage deleted successfully.",
       { dbW with footage := dbW.footage.filter (fun x => x.id != "g1"),
                  votes := dbW.votes.filter (fun v => v.gameplayId != "g1") }) :=
  ⟨rfl, rfl,
   (permission_gate_coverage ⟨"stranger", .User, true⟩ dbW "g1" "https://y/z" "n9" "nv"
     .CSG true none gW rfl).1 rfl,
   rfl,
   (permission_gate_coverage ⟨"stranger", .User, true⟩ dbW "g1" "https://y/z" "n9" "nv"
     .CSG true none gW rfl).2.2.2.2.2.2.2 rfl⟩

/-- Counterexample to claim C3: the blacklisted actor `carl` casts a vote
and the call succeeds, appending a vote row, instead of failing with
Unauthorized; and even for `update`, where the blacklisted actor is
denied, the surfaced error is an internal server error wrapping the
denial, not Unauthorized. -/
theorem blacklisted_vote_not_unauthorized :
    (Session.mk "carl" .Trusted true).blacklisted = true ∧
    (gameplayReview ⟨"carl", .Trusted, true⟩ "g1" false .CSG "v7" dbW).1 =
      .ok "Updated the gameplay document successfully." ∧
    ((gameplayReview ⟨"carl", .Trusted, true⟩ "g1" false .CSG "v7" dbW).2.votes).length =
      dbW.votes.length + 1 ∧
    (gameplayUpdate ⟨"carl", .Trusted, true⟩ "g1" .VAL false dbW).1 =
      .error (.Internal .unauthorized) ∧
    (gameplayUpdate ⟨"carl", .Trusted, true⟩ "g1" .VAL false dbW).1 ≠
      .error .Unauthorized := by decide

/-- Claim C3 (amended): a blacklisted actor's create fails with
Unauthorized and changes no state; their update and delete are denied and
change no state, but the denial surfaces as an internal server error
wrapping Unauthorized because the throw sits inside the handlers'
catch-all; castVote does not consult the blacklist at all — when the
target gameplay exists it succeeds and appends a vote row. -/
theorem blacklisted_mutations (sess : Session) (hb : sess.blacklisted = true)
    (hid : sess.id.isEmpty = false) (db : Db) (gid url nid nv : String)
    (t : GameplayType) (a : Bool) (m : Option VideoInfo) (g : Gameplay)
    (hg : findGameplay db gid = some g) :
    gameplayCreate sess url t m nid db = (.error .Unauthorized, db) ∧
    gameplayUpdate sess gid t a db = (.error (.Internal .unauthorized), db) ∧
    gameplayDelete sess gid db = (.error (.Internal .unauthorized), db) ∧
    gameplayReview sess gid a t nv db =
      (.ok "Updated the gameplay document successfully.",
       { db with votes := db.votes ++ [⟨nv, gid, sess.id, a, t⟩] }) := by
  have hp : ∀ o r, hasPerms ⟨sess.id, .User, o, r, sess.blacklisted⟩ = false := by
    intro o r
    simp [hasPerms, hb]
  refine ⟨?_, ?_, ?_, ?_⟩
  · simp [gameplayCreate, hp]
  · simp [gameplayUpdate, hg, hp]
  · simp [gameplayDelete, hg, hp]
  · simp [gameplayReview, hid, hg]

/-- Witness for `blacklisted_mutations`: the blacklisted administrator
`dana` gets Unauthorized from `create` with the database unchanged. -/
theorem blacklisted_mutations_witness :
    (Session.mk "dana" .Admin true).blacklisted = true ∧
    (Session.mk "dana" .Admin true).id.isEmpty = false ∧
    findGameplay dbW "g1" = some gW ∧
    gameplayCreate ⟨"dana", .Admin, true⟩ "https://y/q" .TF2 none "n3" dbW =
      (.error .Unauthorized, dbW) :=
  ⟨rfl, by decide, rfl,
   (blacklisted_mutations ⟨"dana", .Admin, true⟩ rfl (by decide) dbW "g1" "https://y/q"
     "n3" "v3" .TF2 true none gW rfl).1⟩

/-- The extraction starting state: the analyzer has not run yet, the
downloaded video exists, the durable store and Clip table are empty and
the submission is unparsed. -/
def extractStart : ExtractState :=
  { clipsRootExists := false, segmentDirs := [], videoFileExists := true,
    durableDirs := [], clipRows := [], isParsed := false }

/-- Claim C4, evaluated at its failing input: the analyzer exits having
produced zero segment directories.  The exit handler's whole body is
guarded by `clipDirs.length > 0`, so nothing runs: the downloaded video
file and the transient `clips` working directory are left in place, and
`isParsed` stays false (its update is commented out in the source on
every path).  Only the zero-Clips part of the claim holds. -/
theorem zero_segments_skips_finalization :
    (parseClipsRun "f1" [] [] extractStart).videoFileExists = true ∧
    (parseClipsRun "f1" [] [] extractStart).clipsRootExists = true ∧
    (parseClipsRun "f1" [] [] extractStart).isParsed = false ∧
    (parseClipsRun "f1" [] [] extractStart).clipRows = [] := by decide

/-- Claim C5, evaluated at its failing input: one segment directory whose
copy succeeds.  The durable copy `{submissionId}/{clipId}` is made, but
the `prisma.clip.create` in `storeClips` is commented out, so zero Clip
records exist afterwards instead of exactly one. -/
theorem segments_create_no_clip_rows :
    (parseClipsRun "f1" ["clips/seg0"] ["c1"] extractStart).durableDirs = [("f1", "c1")] ∧
    (parseClipsRun "f1" ["clips/seg0"] ["c1"] extractStart).clipRows = [] ∧
    (parseClipsRun "f1" ["clips/seg0"] ["c1"] extractStart).clipRows.length ≠ 1 := by decide

/-- The empty database. -/
def emptyDb : Db := { users := [], footage := [], clips := [], votes := [] }

/-- Claim C6, evaluated at its failing input: an empty Submission
collection.  `findMany` resolves to an empty array, never to null, so the
handler's `reviewItems === null` test — its only path to NOT_FOUND — is
dead, and the handler returns `reviewItems[0]`, i.e. undefined (`.ok
none`), which then fails the output schema as a generic internal failure
rather than the claimed NotFound. -/
theorem empty_collection_review_not_notfound :
    emptyDb.footage.length = 0 ∧
    gameplayGetReviewItems ⟨"rev", .User, false⟩ .byId .asc 0 emptyDb = .ok none ∧
    gameplayGetReviewItems ⟨"rev", .User, false⟩ .byId .asc 0 emptyDb ≠ .error .NotFound := by
  decide

/-- A database whose submission `g1` still owns one clip. -/
def dbC9 : Db :=
  { users := [], footage := [gW], clips := [⟨"c1", "g1"⟩],
    votes := [⟨"v1", "g1", "owner1", true, .VAL⟩] }

/-- Counterexample to claim C9: deleting a Submission does not cascade to
its Clips.  The `Clip.gameplay` relation declares no referential action,
so the default Restrict applies: with one clip present the delete fails
outright — through the router it surfaces as an internal error — and the
clip, the vote and the submission all remain. -/
theorem delete_with_clips_restricted :
    (clipsOf dbC9 "g1").length = 1 ∧
    prismaDeleteGameplay dbC9 "g1" = .error .restrictViolation ∧
    gameplayDelete ⟨"owner1", .User, false⟩ "g1" dbC9 =
      (.error (.Internal .restrictViolation), dbC9) ∧
    findGameplay dbC9 "g1" = some gW := by decide

/-- Claim C9 (amended): Votes cascade on Submission delete, but Clips do
not — the Clip relation has no referential action, so the default
Restrict makes a delete fail while Clips exist.  Consequently after any
successful delete no Clip and no Vote referencing that Submission
remains: Clips because none can have existed, Votes by cascade. -/
theorem successful_delete_leaves_no_references (db : Db) (gid : String) (db' : Db)
    (h : prismaDeleteGameplay db gid = .ok db') :
    clipsOf db' gid = [] ∧ votesOf db' gid = [] ∧ findGameplay db' gid = none := by
  unfold prismaDeleteGameplay at h
  cases hfind : findGameplay db gid with
  | none =>
      rw [hfind] at h
      exact Except.noConfusion h
  | some g =>
      rw [hfind] at h
      dsimp only at h
      by_cases hclips : (clipsOf db gid).isEmpty = true
      · rw [if_pos hclips] at h
        have hdb : ({ users := db.users,
                      footage := db.footage.filter (fun g => g.id != gid),
                      clips := db.clips,
                      votes := db.votes.filter (fun v => v.gameplayId != gid) } : Db) = db' :=
          Except.ok.inj h
        subst hdb
        refine ⟨?_, ?_, ?_⟩
        · simpa [clipsOf] using List.isEmpty_iff.mp hclips
        · exact filter_eq_after_filter_ne (fun v => v.gameplayId) gid db.votes
        · exact find?_eq_after_filter_ne (fun g => g.id) gid db.footage
      · rw [if_neg hclips] at h
        exact Except.noConfusion h

/-- A database whose submission `g1` has a vote but no clips. -/
def dbC9v : Db :=
  { users := [], footage := [gW], clips := [],
    votes := [⟨"v1", "g1", "owner1", true, .VAL⟩] }

/-- The state after successfully deleting `g1` from `dbC9v`. -/
def dbC9vDel : Db := { users := [], footage := [], clips := [], votes := [] }

/-- Witness for `successful_delete_leaves_no_references`: deleting `g1`
from `dbC9v` succeeds, its vote is cascaded away, and nothing referencing
`g1` remains. -/
theorem successful_delete_leaves_no_references_witness :
    prismaDeleteGameplay dbC9v "g1" = .ok dbC9vDel ∧
    (clipsOf dbC9vDel "g1" = [] ∧ votesOf dbC9vDel "g1" = [] ∧
      findGameplay dbC9vDel "g1" = none) :=
  ⟨by decide, successful_delete_leaves_no_references dbC9v "g1" dbC9vDel (by decide)⟩

/-- Claim C7: `create` with an already-present `sourceUrl` fails with
DuplicateSource for every submitted category and every metadata value —
the result does not depend on the metadata argument at all, so the
duplicate lookup decides before any remote fetch — and once the clashing
Submission has been deleted, `create` with the same URL succeeds again:
deduplication is scoped to currently-existing records. -/
theorem duplicate_source_scoped (sess : Session) (hb : sess.blacklisted = false)
    (db : Db) (url : String) :
    ((findGameplayByUrl db url).isSome = true →
      ∀ (t : GameplayType) (m : Option VideoInfo) (nid : String),
        gameplayCreate sess url t m nid db = (.error .DuplicateSource, db)) ∧
    (∀ (gid : String) (g : Gameplay) (db' : Db),
      findGameplay db gid = some g → g.youtubeUrl = url →
      (∀ x ∈ db.footage, x.youtubeUrl = url → x.id = gid) →
      prismaDeleteGameplay db gid = .ok db' →
      ∀ (t : GameplayType) (info : VideoInfo) (nid : String) (fmt : Nat),
        chooseFormat info.formats = some fmt →
        gameplayCreate sess url t (some info) nid db' =
          (.ok (newGameplay sess.id url t fmt nid),
           { db' with footage := db'.footage ++ [newGameplay sess.id url t fmt nid] })) := by
  constructor
  · intro hdup t m nid
    simp [gameplayCreate, hasPerms, hb, hdup]
  · intro gid g db' hgfind hurl huniq hdel t info nid fmt hfmt
    unfold prismaDeleteGameplay at hdel
    rw [hgfind] at hdel
    dsimp only at hdel
    by_cases hclips : (clipsOf db gid).isEmpty = true
    · rw [if_pos hclips] at hdel
      have hdb : ({ users := db.users,
                    footage := db.footage.filter (fun g => g.id != gid),
                    clips := db.clips,
                    votes := db.votes.filter (fun v => v.gameplayId != gid) } : Db) = db' :=
        Except.ok.inj hdel
      subst hdb
      have hnone : findGameplayByUrl
          ({ users := db.users, footage := db.footage.filter (fun g => g.id != gid),
             clips := db.clips, votes := db.votes.filter (fun v => v.gameplayId != gid) } : Db)
          url = none := by
        apply List.find?_eq_none.mpr
        intro x hx
        have hmem := (List.mem_filter.mp hx).1
        have hne := (List.mem_filter.mp hx).2
        simp only [bne_iff_ne, ne_eq] at hne
        intro hbeq
        exact hne (huniq x hmem (by simpa using hbeq))
      simp [gameplayCreate, hasPerms, hb, hnone, hfmt]
    · rw [if_neg hclips] at hdel
      exact Except.noConfusion hdel

/-- `dbW` after `g1` has been deleted. -/
def dbWdel : Db :=
  { users := [{ id := "owner1", name := some "Owner", role := .User, blacklisted := false }],
    footage := [], clips := [], votes := [] }

/-- Sample metadata for the witness resubmission. -/
def infoC7 : VideoInfo := ⟨[⟨299⟩, ⟨298⟩]⟩

/-- Witness for `duplicate_source_scoped`: submitting `gW`'s URL again is
rejected as a duplicate whatever metadata is supplied; after deleting
`g1`, the same URL is accepted again. -/
theorem duplicate_source_scoped_witness :
    (Session.mk "owner1" .User false).blacklisted = false ∧
    (findGameplayByUrl dbW "https://y/a").isSome = true ∧
    gameplayCreate ⟨"owner1", .User, false⟩ "https://y/a" .CSG none "n1" dbW =
      (.error .DuplicateSource, dbW) ∧
    findGameplay dbW "g1" = some gW ∧
    gW.youtubeUrl = "https://y/a" ∧
    prismaDeleteGameplay dbW "g1" = .ok dbWdel ∧
    chooseFormat infoC7.formats = some 299 ∧
    gameplayCreate ⟨"owner1", .User, false⟩ "https://y/a" .VAL (some infoC7) "n2" dbWdel =
      (.ok (newGameplay "owner1" "https://y/a" .VAL 299 "n2"),
       { dbWdel with footage := dbWdel.footage ++ [newGameplay "owner1" "https://y/a" .VAL 299 "n2"] }) := by
  refine ⟨rfl, rfl, ?_, rfl, rfl, by decide, rfl, ?_⟩
  · exact (duplicate_source_scoped ⟨"owner1", .User, false⟩ rfl dbW "https://y/a").1
      rfl .CSG none "n1"
  · exact (duplicate_source_scoped ⟨"owner1", .User, false⟩ rfl dbW "https://y/a").2
      "g1" gW dbWdel rfl rfl (by decide) (by decide) .VAL infoC7 "n2" 299 rfl

/-- Claim C8: `create` selects the download encoding by the fixed
preference list itag 299, then 298, then 136, evaluated in order with the
first available winning; when the primary (299) is present it is always
chosen; and when none of the three preferred encodings is present,
`create` fails with NoAcceptableEncoding and persists nothing.  The last
conjunct records that a successful selection is exactly what `create`
persists as `videoFormat`. -/
theorem encoding_preference_order (sess : Session) (hb : sess.blacklisted = false)
    (db : Db) (url : String) (hnd : findGameplayByUrl db url = none)
    (info : VideoInfo) (t : GameplayType) (nid : String) :
    ((info.formats.find? (fun f => f.itag == 299)).isSome = true →
      chooseFormat info.formats = some 299) ∧
    (info.formats.find? (fun f => f.itag == 299) = none →
      ∀ f, info.formats.find? (fun f => f.itag == 298) = some f →
        chooseFormat info.formats = some 298) ∧
    (info.formats.find? (fun f => f.itag == 299) = none →
      info.formats.find? (fun f => f.itag == 298) = none →
      (info.formats.find? (fun f => f.itag == 136)).isSome = true →
      chooseFormat info.formats = some 136) ∧
    (info.formats.find? (fun f => f.itag == 299) = none →
      info.formats.find? (fun f => f.itag == 298) = none →
      info.formats.find? (fun f => f.itag == 136) = none →
      gameplayCreate sess url t (some info) nid db = (.error .NoAcceptableEncoding, db)) ∧
    (∀ fmt, chooseFormat info.formats = some fmt →
      gameplayCreate sess url t (some info) nid db =
        (.ok (newGameplay sess.id url t fmt nid),
         { db with footage := db.footage ++ [newGameplay sess.id url t fmt nid] })) := by
  refine ⟨?_, ?_, ?_, ?_, ?_⟩
  · intro h1
    obtain ⟨f, hf⟩ := Option.isSome_iff_exists.mp h1
    have hitag : f.itag = 299 := by simpa using List.find?_some hf
    simp [chooseFormat, Option.orElse, hf, hitag]
  · intro h1 f hf
    have hitag : f.itag = 298 := by simpa using List.find?_some hf
    simp [chooseFormat, Option.orElse, h1, hf, hitag]
  · intro h1 h2 h3
    simp [chooseFormat, Option.orElse, h1, h2, h3]
  · intro h1 h2 h3
    have hcf : chooseFormat info.formats = none := by
      simp [chooseFormat, Option.orElse, h1, h2, h3]
    simp [gameplayCreate, hasPerms, hb, hnd, hcf]
  · intro fmt hfmt
    simp [gameplayCreate, hasPerms, hb, hnd, hfmt]

/-- Metadata containing the primary encoding (and others). -/
def infoA : VideoInfo := ⟨[⟨137⟩, ⟨299⟩, ⟨136⟩]⟩

/-- Metadata containing none of the preferred encodings. -/
def infoB : VideoInfo := ⟨[⟨137⟩, ⟨22⟩]⟩

/-- Witness for `encoding_preference_order`: with the primary present the
selection is 299; with none of the preferred encodings present `create`
is rejected with NoAcceptableEncoding and the database is unchanged. -/
theorem encoding_preference_order_witness :
    (Session.mk "owner1" .User false).blacklisted = false ∧
    findGameplayByUrl dbW "https://y/b" = none ∧
    (infoA.formats.find? (fun f => f.itag == 299)).isSome = true ∧
    chooseFormat infoA.formats = some 299 ∧
    infoB.formats.find? (fun f => f.itag == 299) = none ∧
    infoB.formats.find? (fun f => f.itag == 298) = none ∧
    infoB.formats.find? (fun f => f.itag == 136) = none ∧
    gameplayCreate ⟨"owner1", .User, false⟩ "https://y/b" .COD (some infoB) "n5" dbW =
      (.error .NoAcceptableEncoding, dbW) := by
  refine ⟨rfl, rfl, rfl, ?_, rfl, rfl, rfl, ?_⟩
  · exact (encoding_preference_order ⟨"owner1", .User, false⟩ rfl dbW "https://y/b" rfl
      infoA .COD "n5").1 rfl
  · exact (encoding_preference_order ⟨"owner1", .User, false⟩ rfl dbW "https://y/b" rfl
      infoB .COD "n5").2.2.2.1 rfl rfl rfl

end Waldo
